import Mathlib

/-!
Shallow embedding of the ULTIMA_SYSTEM integration façade
(src/integrations.py) and proofs about its provider-selection policy.

External effects are modelled by oracles: every call into a backend
(SDK call, HTTP round-trip, subprocess) is a value of type
`Except Unit α`, where `Except.error ()` stands for the backend raising
an exception and `Except.ok a` for it returning `a`.  Python
`try/except` blocks that swallow the exception and fall back to a
default are modelled by `pyTry`.  Python `None` is `Option.none`;
a Python `Optional[str]` is `Option String`.

Adapter methods return, besides their result, a `Bool` recording
whether the backend oracle was actually consulted (call-count
instrumentation for the no-invocation claims) and the adapter value
itself (state threading: the source never assigns to an adapter
attribute after `__init__`, which the frame theorems make explicit).
-/

/-- Python try/except returning a fallback value: the source pattern
`try: return body except Exception: return fallback`. -/
def pyTry {α : Type} (body : Except Unit α) (fallback : α) : α :=
  match body with
  | .ok a => a
  | .error _ => fallback

/-- Python truthiness of an `Optional[str]`: `None` and the empty
string are falsy, every other string is truthy (the `if result:` test
in the auto-mode loop). -/
def pyTruthy (r : Option String) : Bool :=
  match r with
  | none => false
  | some t => !(t == "")

/-- A chat message, the `{role, content}` dictionaries of the source. -/
structure ChatMessage where
  role : String
  content : String
deriving DecidableEq, Repr

/-- Embeds `OllamaIntegration` (src/integrations.py lines 16-71): the
construction-time probe leaves only the `available` flag; the client
handles live in the oracles. -/
structure OllamaIntegration where
  available : Bool
deriving DecidableEq, Repr

/-- OllamaIntegration construction (lines 19-27): importing the ollama
package and building the clients may raise; the except clause catches
and sets `available` to false. -/
def OllamaIntegration.init (probe : Except Unit Unit) : OllamaIntegration :=
  match probe with
  | .ok _ => ⟨true⟩
  | .error _ => ⟨false⟩

/-- OllamaIntegration.generate (lines 40-49).  The oracle models
`self.client.generate`, yielding the optional `response` field of the
response dict; the source then does `response.get(..., "")`, so a
missing field becomes the empty string.  Any raise is caught and
becomes `none`. -/
def OllamaIntegration.generate (o : OllamaIntegration)
    (backend : String → String → Except Unit (Option String))
    (model prompt : String) : (Option String × Bool) × OllamaIntegration :=
  if o.available = false then ((none, false), o)
  else
    ((pyTry (do
        let resp ← backend model prompt
        pure (some (resp.getD ""))) none, true), o)

/-- OllamaIntegration.list_models (lines 29-38): unavailable gives `[]`,
a raising backend gives `[]`, otherwise the model names. -/
def OllamaIntegration.list_models (o : OllamaIntegration)
    (backend : Except Unit (List String)) : List String × OllamaIntegration :=
  if o.available = false then ([], o)
  else (pyTry backend [], o)

/-- OllamaIntegration.chat (lines 62-71): the oracle models
`self.client.chat` followed by the `response[message][content]`
lookups, which raise when absent. -/
def OllamaIntegration.chat (o : OllamaIntegration)
    (backend : String → List ChatMessage → Except Unit String)
    (model : String) (messages : List ChatMessage) :
    (Option String × Bool) × OllamaIntegration :=
  if o.available = false then ((none, false), o)
  else
    ((pyTry (do
        let c ← backend model messages
        pure (some c)) none, true), o)

/-- Embeds `DolphinIntegration` (lines 74-127). -/
structure DolphinIntegration where
  dolphinPath : String
  available : Bool
deriving DecidableEq, Repr

/-- DolphinIntegration construction (lines 77-82): `available` is
exactly whether the dolphin path exists. -/
def DolphinIntegration.init (path : String) (pathExists : Bool) : DolphinIntegration :=
  ⟨path, pathExists⟩

/-- The slice of filesystem state the Dolphin adapter touches. -/
structure DolphinFS where
  dirExists : Bool
  tempIdea : Bool
  scriptExists : String → Bool

/-- DolphinIntegration.run_script (lines 84-104): short-circuit when
unavailable or when the script file is missing; the oracle models
`subprocess.run` (its raise is caught, line 102), whose stdout is
returned verbatim.  The subprocess is not modelled as touching the
adapter-owned filesystem bits. -/
def DolphinIntegration.run_script (d : DolphinIntegration) (fs : DolphinFS)
    (name : String) (proc : Except Unit String) :
    Option String × DolphinIntegration :=
  if d.available = false then (none, d)
  else if fs.scriptExists name = false then (none, d)
  else
    (pyTry (do
        let out ← proc
        pure (some out)) none, d)

/-- DolphinIntegration.create_idea (lines 114-127): write the payload
to `temp_idea.json` (the `open` call raises when the dolphin directory
is missing; serialization of the `Dict[str, Any]` payload itself is
modelled as succeeding and the payload stays abstract), run the
`create-idea.mjs` script via run_script, then unlink the temp file if
it still exists. -/
def DolphinIntegration.create_idea (d : DolphinIntegration) (fs : DolphinFS)
    (proc : Except Unit String) :
    Except Unit ((Option String × DolphinFS) × DolphinIntegration) :=
  if fs.dirExists = false then .error ()
  else
    let fs1 : DolphinFS := { fs with tempIdea := true }
    let rs := d.run_script fs1 "create-idea.mjs" proc
    let fs2 : DolphinFS := if fs1.tempIdea = true then { fs1 with tempIdea := false } else fs1
    .ok ((rs.1, fs2), rs.2)

/-- Embeds `GeminiIntegration` (lines 130-203). -/
structure GeminiIntegration where
  available : Bool
  modelName : String
deriving DecidableEq, Repr

/-- GeminiIntegration construction (lines 133-158): the probe covers
importing the SDK and building the client (its raise is caught); `key`
is the resolved API key after the env-var and .env fallbacks, `none`
when no key was found. -/
def GeminiIntegration.init (probe : Except Unit Unit) (key : Option String) :
    GeminiIntegration :=
  match probe, key with
  | .ok _, some _ => ⟨true, "gemini-2.0-flash"⟩
  | _, _ => ⟨false, "gemini-2.0-flash"⟩

/-- GeminiIntegration.generate (lines 160-178): the oracle models
`client.models.generate_content` followed by `response.text`, which the
SDK types as optional — the source returns it unfiltered.  Sampling
options (temperature, max tokens) are absorbed into the oracle. -/
def GeminiIntegration.generate (g : GeminiIntegration)
    (backend : String → String → Except Unit (Option String))
    (prompt : String) (modelArg : Option String) :
    (Option String × Bool) × GeminiIntegration :=
  if g.available = false then ((none, false), g)
  else ((pyTry (backend (modelArg.getD g.modelName) prompt) none, true), g)

/-- Role mapping of GeminiIntegration.chat (line 188): user stays user,
everything else becomes model. -/
def geminiContents (messages : List ChatMessage) : List ChatMessage :=
  messages.map (fun m => ⟨if m.role == "user" then "user" else "model", m.content⟩)

/-- GeminiIntegration.chat (lines 180-203): converts roles, then the
same generate_content call on the converted history. -/
def GeminiIntegration.chat (g : GeminiIntegration)
    (backend : String → List ChatMessage → Except Unit (Option String))
    (messages : List ChatMessage) (modelArg : Option String) :
    (Option String × Bool) × GeminiIntegration :=
  if g.available = false then ((none, false), g)
  else
    ((pyTry (backend (modelArg.getD g.modelName) (geminiContents messages)) none,
      true), g)

/-- The `claudeAiOauth` credential object (spec section 6); every field
is read with `.get`, so each is optional. -/
structure ClaudeCredentials where
  accessToken : Option String
  refreshToken : Option String
  expiresAt : Option Int
  subscriptionType : Option String
deriving DecidableEq, Repr

/-- Embeds `ClaudeIntegration` (lines 206-293). -/
structure ClaudeIntegration where
  available : Bool
  credentials : Option ClaudeCredentials
  modelName : String
deriving DecidableEq, Repr

/-- ClaudeIntegration construction (lines 209-235): `_load_credentials`
catches its own failures and yields an optional snapshot, independent
of SDK availability; the SDK probe and resolved key decide
`available`. -/
def ClaudeIntegration.init (credsLoad : Option ClaudeCredentials)
    (probe : Except Unit Unit) (key : Option String) : ClaudeIntegration :=
  match probe, key with
  | .ok _, some _ => ⟨true, credsLoad, "claude-sonnet-4-5-20250929"⟩
  | _, _ => ⟨false, credsLoad, "claude-sonnet-4-5-20250929"⟩

/-- ClaudeIntegration.is_token_valid (lines 253-258): no credential
snapshot means invalid; otherwise compare the current epoch-millisecond
time against the expiresAt field, defaulting to 0 when absent. -/
def ClaudeIntegration.is_token_valid (c : ClaudeIntegration) (now : Nat) :
    Bool × ClaudeIntegration :=
  match c.credentials with
  | none => (false, c)
  | some creds => (decide ((now : Int) < creds.expiresAt.getD 0), c)

/-- ClaudeIntegration.generate (lines 265-278): the oracle models
`client.messages.create` followed by `message.content[0].text` (the
indexing raises on empty content, hence a plain `String` success). -/
def ClaudeIntegration.generate (c : ClaudeIntegration)
    (backend : String → String → Except Unit String)
    (prompt : String) (modelArg : Option String) :
    (Option String × Bool) × ClaudeIntegration :=
  if c.available = false then ((none, false), c)
  else
    ((pyTry (do
        let t ← backend (modelArg.getD c.modelName) prompt
        pure (some t)) none, true), c)

/-- ClaudeIntegration.chat (lines 280-293): same call on a full message
history. -/
def ClaudeIntegration.chat (c : ClaudeIntegration)
    (backend : String → List ChatMessage → Except Unit String)
    (messages : List ChatMessage) (modelArg : Option String) :
    (Option String × Bool) × ClaudeIntegration :=
  if c.available = false then ((none, false), c)
  else
    ((pyTry (do
        let t ← backend (modelArg.getD c.modelName) messages
        pure (some t)) none, true), c)

/-- Embeds `OpenAIIntegration` (lines 296-361). -/
structure OpenAIIntegration where
  available : Bool
  modelName : String
deriving DecidableEq, Repr

/-- OpenAIIntegration construction (lines 299-329). -/
def OpenAIIntegration.init (probe : Except Unit Unit) (key : Option String) :
    OpenAIIntegration :=
  match probe, key with
  | .ok _, some _ => ⟨true, "gpt-4o-mini"⟩
  | _, _ => ⟨false, "gpt-4o-mini"⟩

/-- OpenAIIntegration.generate (lines 331-345): the oracle models
`client.chat.completions.create` followed by
`response.choices[0].message.content`, which the SDK types as
optional — returned unfiltered. -/
def OpenAIIntegration.generate (o : OpenAIIntegration)
    (backend : String → String → Except Unit (Option String))
    (prompt : String) (modelArg : Option String) :
    (Option String × Bool) × OpenAIIntegration :=
  if o.available = false then ((none, false), o)
  else ((pyTry (backend (modelArg.getD o.modelName) prompt) none, true), o)

/-- OpenAIIntegration.chat (lines 347-361). -/
def OpenAIIntegration.chat (o : OpenAIIntegration)
    (backend : String → List ChatMessage → Except Unit (Option String))
    (messages : List ChatMessage) (modelArg : Option String) :
    (Option String × Bool) × OpenAIIntegration :=
  if o.available = false then ((none, false), o)
  else ((pyTry (backend (modelArg.getD o.modelName) messages) none, true), o)

/-- The unified façade `UltimaSystem` (lines 364-495): one instance of
each adapter. -/
structure UltimaSystem where
  ollama : OllamaIntegration
  dolphin : DolphinIntegration
  gemini : GeminiIntegration
  claude : ClaudeIntegration
  openai : OpenAIIntegration
deriving DecidableEq, Repr

/-- UltimaSystem construction (lines 371-380): each adapter is built
from its own probe; no probe outcome can abort construction. -/
def UltimaSystem.init (ollamaProbe : Except Unit Unit)
    (dolphinPath : String) (dolphinPathExists : Bool)
    (geminiProbe : Except Unit Unit) (geminiKey : Option String)
    (claudeCreds : Option ClaudeCredentials)
    (claudeProbe : Except Unit Unit) (claudeKey : Option String)
    (openaiProbe : Except Unit Unit) (openaiKey : Option String) : UltimaSystem :=
  ⟨OllamaIntegration.init ollamaProbe,
   DolphinIntegration.init dolphinPath dolphinPathExists,
   GeminiIntegration.init geminiProbe geminiKey,
   ClaudeIntegration.init claudeCreds claudeProbe claudeKey,
   OpenAIIntegration.init openaiProbe openaiKey⟩

/-- The backend oracles the façade-level generate paths may consult:
one generation call per model provider. -/
structure Backends where
  ollama : String → String → Except Unit (Option String)
  gemini : String → String → Except Unit (Option String)
  claude : String → String → Except Unit String
  openai : String → String → Except Unit (Option String)

/-- The `**kwargs` of the façade generate call: the provider-specific
parameters named by the docstring (model, temperature, max_tokens).
Sampling parameters flow into the oracles. -/
structure GenOptions where
  model : Option String
  temperature : Option Int
  maxTokens : Option Int
deriving DecidableEq, Repr

/-- UltimaSystem._gen_ollama (lines 447-450).  The source forwards
`kwargs.get("model", "llama2")` positionally and then passes `**kwargs`
as well; when the options carry a model key, Python rejects the call
with a TypeError (multiple values for argument model) before the
adapter body runs, and nothing catches it — hence the error branch. -/
def UltimaSystem.genOllama (s : UltimaSystem) (b : Backends)
    (prompt : String) (opts : GenOptions) :
    Except Unit ((Option String × Bool) × UltimaSystem) :=
  if s.ollama.available = false then .ok ((none, false), s)
  else if opts.model.isSome = true then .error ()
  else
    let r := s.ollama.generate b.ollama (opts.model.getD "llama2") prompt
    .ok (r.1, { s with ollama := r.2 })

/-- UltimaSystem._gen_gemini (lines 452-455). -/
def UltimaSystem.genGemini (s : UltimaSystem) (b : Backends)
    (prompt : String) (opts : GenOptions) :
    Except Unit ((Option String × Bool) × UltimaSystem) :=
  if s.gemini.available = false then .ok ((none, false), s)
  else
    let r := s.gemini.generate b.gemini prompt opts.model
    .ok (r.1, { s with gemini := r.2 })

/-- UltimaSystem._gen_claude (lines 457-460). -/
def UltimaSystem.genClaude (s : UltimaSystem) (b : Backends)
    (prompt : String) (opts : GenOptions) :
    Except Unit ((Option String × Bool) × UltimaSystem) :=
  if s.claude.available = false then .ok ((none, false), s)
  else
    let r := s.claude.generate b.claude prompt opts.model
    .ok (r.1, { s with claude := r.2 })

/-- UltimaSystem._gen_openai (lines 462-465). -/
def UltimaSystem.genOpenai (s : UltimaSystem) (b : Backends)
    (prompt : String) (opts : GenOptions) :
    Except Unit ((Option String × Bool) × UltimaSystem) :=
  if s.openai.available = false then .ok ((none, false), s)
  else
    let r := s.openai.generate b.openai prompt opts.model
    .ok (r.1, { s with openai := r.2 })

/-- The keys of the `providers` dict (lines 424-429). -/
def knownProviders : List String := ["ollama", "gemini", "claude", "openai"]

/-- Lookup in the `providers` dict followed by the call `fn(prompt)`. -/
def UltimaSystem.dispatch (s : UltimaSystem) (b : Backends)
    (name prompt : String) (opts : GenOptions) :
    Except Unit ((Option String × Bool) × UltimaSystem) :=
  if name = "ollama" then s.genOllama b prompt opts
  else if name = "gemini" then s.genGemini b prompt opts
  else if name = "claude" then s.genClaude b prompt opts
  else if name = "openai" then s.genOpenai b prompt opts
  else .ok ((none, false), s)

/-- The text result of a dispatch, with a raising run collapsed to
`none` (used only to phrase theorems; a raising run never reaches a
result in the source). -/
def UltimaSystem.dispatchR (s : UltimaSystem) (b : Backends)
    (name prompt : String) (opts : GenOptions) : Option String :=
  match s.dispatch b name prompt opts with
  | .ok p => p.1.1
  | .error _ => none

/-- Whether the named provider is available in the façade, as the
`_gen_*` guards read it; unknown names count as unavailable. -/
def UltimaSystem.providerAvailable (s : UltimaSystem) (name : String) : Bool :=
  if name = "ollama" then s.ollama.available
  else if name = "gemini" then s.gemini.available
  else if name = "claude" then s.claude.available
  else if name = "openai" then s.openai.available
  else false

/-- What one façade generate call produced: the optional text, the
providers whose backend oracle was consulted (in order), and the
error lines the façade itself printed. -/
structure GenOutcome where
  result : Option String
  calls : List String
  log : List String
deriving DecidableEq, Repr

/-- The priority order of the auto loop (line 439). -/
def autoPriority : List String := ["claude", "openai", "gemini", "ollama"]

/-- The auto-mode loop (lines 439-445): walk the priority list, return
the first truthy result, accumulate which backends were consulted.
An exception escaping a `_gen_*` call has nothing to catch it here, so
it propagates (the error branches). -/
def UltimaSystem.autoTry (s : UltimaSystem) (b : Backends)
    (prompt : String) (opts : GenOptions) :
    List String → Except Unit (GenOutcome × UltimaSystem)
  | [] => .ok (⟨none, [], ["[ERROR] No provider available for generation"]⟩, s)
  | n :: rest =>
    match s.dispatch b n prompt opts with
    | .error e => .error e
    | .ok step =>
      if pyTruthy step.1.1 = true then
        .ok (⟨step.1.1, if step.1.2 = true then [n] else [], []⟩, step.2)
      else
        match step.2.autoTry b prompt opts rest with
        | .error e => .error e
        | .ok next =>
          .ok (⟨next.1.result,
                (if step.1.2 = true then [n] else []) ++ next.1.calls,
                next.1.log⟩, next.2)

/-- UltimaSystem.generate (lines 412-445): explicit provider names are
looked up in the dict (unknown names are reported and give `none`);
the name auto runs the fallback loop. -/
def UltimaSystem.generate (s : UltimaSystem) (b : Backends)
    (prompt provider : String) (opts : GenOptions) :
    Except Unit (GenOutcome × UltimaSystem) :=
  if provider ≠ "auto" then
    if provider ∈ knownProviders then
      match s.dispatch b provider prompt opts with
      | .error e => .error e
      | .ok step =>
        .ok (⟨step.1.1, if step.1.2 = true then [provider] else [], []⟩, step.2)
    else
      .ok (⟨none, [], ["[ERROR] Unknown provider: " ++ provider]⟩, s)
  else s.autoTry b prompt opts autoPriority

/-- The status snapshot (lines 467-495). -/
structure StatusReport where
  ollamaAvailable : Bool
  ollamaModels : List String
  dolphinAvailable : Bool
  dolphinPath : Option String
  geminiAvailable : Bool
  geminiModel : Option String
  claudeAvailable : Bool
  claudeModel : Option String
  openaiAvailable : Bool
  openaiModel : Option String
deriving DecidableEq, Repr

/-- UltimaSystem.status_report (lines 467-495): rebuilt fresh each
call; the installed-model list is fetched only when ollama is
available. -/
def UltimaSystem.status_report (s : UltimaSystem)
    (ollamaList : Except Unit (List String)) : StatusReport × UltimaSystem :=
  let ms := if s.ollama.available = true then s.ollama.list_models ollamaList
            else ([], s.ollama)
  (⟨s.ollama.available, ms.1,
    s.dolphin.available,
    (if s.dolphin.available = true then some s.dolphin.dolphinPath else none),
    s.gemini.available,
    (if s.gemini.available = true then some s.gemini.modelName else none),
    s.claude.available,
    (if s.claude.available = true then some s.claude.modelName else none),
    s.openai.available,
    (if s.openai.available = true then some s.openai.modelName else none)⟩,
   { s with ollama := ms.2 })

/-! ### Concrete fixtures used to evaluate the embedding -/

/-- Backends on which every call raises (nothing reachable). -/
def bAllRaise : Backends :=
  ⟨fun _ _ => .error (), fun _ _ => .error (), fun _ _ => .error (), fun _ _ => .error ()⟩

/-- Empty kwargs: no model, temperature or max_tokens key. -/
def optsPlain : GenOptions := ⟨none, none, none⟩

/-- Kwargs carrying a model override, as the generate docstring
advertises. -/
def optsWithModel : GenOptions := ⟨some "llama3", none, none⟩

/-- A Dolphin adapter probed against a missing path. -/
def dolphinMissing : DolphinIntegration := ⟨"E:/DOLPHIN", false⟩

/-- A Dolphin adapter probed against an existing path. -/
def dolphinLive : DolphinIntegration := ⟨"E:/DOLPHIN", true⟩

/-- Filesystem with the dolphin directory and every script present and
no leftover temp file. -/
def fsLive : DolphinFS := ⟨true, false, fun _ => true⟩

/-- A Gemini adapter whose probe failed. -/
def geminiDown : GeminiIntegration := ⟨false, "gemini-2.0-flash"⟩

/-- A Claude adapter whose probe failed and with no credential file. -/
def claudeDown : ClaudeIntegration := ⟨false, none, "claude-sonnet-4-5-20250929"⟩

/-- An OpenAI adapter whose probe failed. -/
def openaiDown : OpenAIIntegration := ⟨false, "gpt-4o-mini"⟩

/-- Façade in which every probe failed. -/
def sysAllDown : UltimaSystem := ⟨⟨false⟩, dolphinMissing, geminiDown, claudeDown, openaiDown⟩

/-- Façade in which only the ollama probe succeeded. -/
def sysOllamaOnly : UltimaSystem := ⟨⟨true⟩, dolphinMissing, geminiDown, claudeDown, openaiDown⟩

/-- Façade in which only the gemini probe succeeded. -/
def sysGeminiOnly : UltimaSystem :=
  ⟨⟨false⟩, dolphinMissing, ⟨true, "gemini-2.0-flash"⟩, claudeDown, openaiDown⟩

/-- The spec scenario: gemini and ollama available, claude and openai
not. -/
def sysScenario : UltimaSystem :=
  ⟨⟨true⟩, dolphinMissing, ⟨true, "gemini-2.0-flash"⟩, claudeDown, openaiDown⟩

/-- The spec scenario backends: gemini answers the empty string to
every prompt, ollama answers hello to the prompt hi. -/
def bScenario : Backends :=
  ⟨fun _ p => if p = "hi" then .ok (some "hello") else .ok (some ""),
   fun _ _ => .ok (some ""),
   fun _ _ => .error (),
   fun _ _ => .error ()⟩

/-- Backends in which the ollama response dict carries no response
field (so the adapter default kicks in), everything else raising. -/
def bNoResponseField : Backends :=
  ⟨fun _ _ => .ok none, fun _ _ => .error (), fun _ _ => .error (), fun _ _ => .error ()⟩

/-- Backends in which only gemini answers. -/
def bGemini : Backends :=
  ⟨fun _ _ => .error (), fun _ _ => .ok (some "gm"), fun _ _ => .error (), fun _ _ => .error ()⟩

/-- A credential snapshot expiring at epoch millisecond 5000. -/
def credsA : ClaudeCredentials := ⟨some "tok", none, some 5000, some "max"⟩

/-- A credential snapshot expiring at epoch millisecond 1000000. -/
def credsB : ClaudeCredentials := ⟨some "tok", none, some 1000000, some "pro"⟩

/-- A Claude adapter that loaded credsA while its SDK probe failed. -/
def claudeWithA : ClaudeIntegration := ⟨false, some credsA, "claude-sonnet-4-5-20250929"⟩

/-- A Claude adapter that loaded credsB while its SDK probe failed. -/
def claudeWithB : ClaudeIntegration := ⟨false, some credsB, "claude-sonnet-4-5-20250929"⟩

/-! ### Helper lemmas -/

/-- Adapter generate never modifies the ollama adapter value. -/
theorem ollama_generate_frame (o : OllamaIntegration)
    (backend : String → String → Except Unit (Option String)) (model prompt : String) :
    (o.generate backend model prompt).2 = o := by
  unfold OllamaIntegration.generate
  split <;> rfl

/-- Adapter chat never modifies the ollama adapter value. -/
theorem ollama_chat_frame (o : OllamaIntegration)
    (backend : String → List ChatMessage → Except Unit String)
    (model : String) (messages : List ChatMessage) :
    (o.chat backend model messages).2 = o := by
  unfold OllamaIntegration.chat
  split <;> rfl

/-- list_models never modifies the ollama adapter value. -/
theorem ollama_list_models_frame (o : OllamaIntegration)
    (backend : Except Unit (List String)) :
    (o.list_models backend).2 = o := by
  unfold OllamaIntegration.list_models
  split <;> rfl

/-- Adapter generate never modifies the gemini adapter value. -/
theorem gemini_generate_frame (g : GeminiIntegration)
    (backend : String → String → Except Unit (Option String))
    (prompt : String) (modelArg : Option String) :
    (g.generate backend prompt modelArg).2 = g := by
  unfold GeminiIntegration.generate
  split <;> rfl

/-- Adapter chat never modifies the gemini adapter value. -/
theorem gemini_chat_frame (g : GeminiIntegration)
    (backend : String → List ChatMessage → Except Unit (Option String))
    (messages : List ChatMessage) (modelArg : Option String) :
    (g.chat backend messages modelArg).2 = g := by
  unfold GeminiIntegration.chat
  split <;> rfl

/-- Adapter generate never modifies the claude adapter value. -/
theorem claude_generate_frame (c : ClaudeIntegration)
    (backend : String → String → Except Unit String)
    (prompt : String) (modelArg : Option String) :
    (c.generate backend prompt modelArg).2 = c := by
  unfold ClaudeIntegration.generate
  split <;> rfl

/-- Adapter chat never modifies the claude adapter value. -/
theorem claude_chat_frame (c : ClaudeIntegration)
    (backend : String → List ChatMessage → Except Unit String)
    (messages : List ChatMessage) (modelArg : Option String) :
    (c.chat backend messages modelArg).2 = c := by
  unfold ClaudeIntegration.chat
  split <;> rfl

/-- is_token_valid never modifies the claude adapter value. -/
theorem claude_is_token_valid_frame (c : ClaudeIntegration) (now : Nat) :
    (c.is_token_valid now).2 = c := by
  unfold ClaudeIntegration.is_token_valid
  split <;> rfl

/-- Adapter generate never modifies the openai adapter value. -/
theorem openai_generate_frame (o : OpenAIIntegration)
    (backend : String → String → Except Unit (Option String))
    (prompt : String) (modelArg : Option String) :
    (o.generate backend prompt modelArg).2 = o := by
  unfold OpenAIIntegration.generate
  split <;> rfl

/-- Adapter chat never modifies the openai adapter value. -/
theorem openai_chat_frame (o : OpenAIIntegration)
    (backend : String → List ChatMessage → Except Unit (Option String))
    (messages : List ChatMessage) (modelArg : Option String) :
    (o.chat backend messages modelArg).2 = o := by
  unfold OpenAIIntegration.chat
  split <;> rfl

/-- run_script never modifies the dolphin adapter value. -/
theorem dolphin_run_script_frame (d : DolphinIntegration) (fs : DolphinFS)
    (name : String) (proc : Except Unit String) :
    (d.run_script fs name proc).2 = d := by
  unfold DolphinIntegration.run_script
  split
  · rfl
  · split <;> rfl

/-- A successful _gen_ollama call leaves the system unchanged, and its
invoked flag implies the ollama adapter was available. -/
theorem UltimaSystem.genOllama_inv (s : UltimaSystem) (b : Backends)
    (prompt : String) (opts : GenOptions) (p : Option String × Bool) (s' : UltimaSystem)
    (h : s.genOllama b prompt opts = .ok (p, s')) :
    s' = s ∧ (p.2 = true → s.ollama.available = true) := by
  unfold UltimaSystem.genOllama at h
  split at h
  · simp only [Except.ok.injEq, Prod.mk.injEq] at h
    obtain ⟨hp, hs⟩ := h
    refine ⟨hs.symm, ?_⟩
    rw [← hp]
    simp
  · split at h
    · exact absurd h (by simp)
    · simp only [Except.ok.injEq, Prod.mk.injEq] at h
      obtain ⟨hp, hs⟩ := h
      constructor
      · rw [← hs, ollama_generate_frame]
      · intro _
        simp_all

/-- A successful _gen_gemini call leaves the system unchanged, and its
invoked flag implies the gemini adapter was available. -/
theorem UltimaSystem.genGemini_inv (s : UltimaSystem) (b : Backends)
    (prompt : String) (opts : GenOptions) (p : Option String × Bool) (s' : UltimaSystem)
    (h : s.genGemini b prompt opts = .ok (p, s')) :
    s' = s ∧ (p.2 = true → s.gemini.available = true) := by
  unfold UltimaSystem.genGemini at h
  split at h
  · simp only [Except.ok.injEq, Prod.mk.injEq] at h
    obtain ⟨hp, hs⟩ := h
    refine ⟨hs.symm, ?_⟩
    rw [← hp]
    simp
  · simp only [Except.ok.injEq, Prod.mk.injEq] at h
    obtain ⟨hp, hs⟩ := h
    constructor
    · rw [← hs, gemini_generate_frame]
    · intro _
      simp_all

/-- A successful _gen_claude call leaves the system unchanged, and its
invoked flag implies the claude adapter was available. -/
theorem UltimaSystem.genClaude_inv (s : UltimaSystem) (b : Backends)
    (prompt : String) (opts : GenOptions) (p : Option String × Bool) (s' : UltimaSystem)
    (h : s.genClaude b prompt opts = .ok (p, s')) :
    s' = s ∧ (p.2 = true → s.claude.available = true) := by
  unfold UltimaSystem.genClaude at h
  split at h
  · simp only [Except.ok.injEq, Prod.mk.injEq] at h
    obtain ⟨hp, hs⟩ := h
    refine ⟨hs.symm, ?_⟩
    rw [← hp]
    simp
  · simp only [Except.ok.injEq, Prod.mk.injEq] at h
    obtain ⟨hp, hs⟩ := h
    constructor
    · rw [← hs, claude_generate_frame]
    · intro _
      simp_all

/-- A successful _gen_openai call leaves the system unchanged, and its
invoked flag implies the openai adapter was available. -/
theorem UltimaSystem.genOpenai_inv (s : UltimaSystem) (b : Backends)
    (prompt : String) (opts : GenOptions) (p : Option String × Bool) (s' : UltimaSystem)
    (h : s.genOpenai b prompt opts = .ok (p, s')) :
    s' = s ∧ (p.2 = true → s.openai.available = true) := by
  unfold UltimaSystem.genOpenai at h
  split at h
  · simp only [Except.ok.injEq, Prod.mk.injEq] at h
    obtain ⟨hp, hs⟩ := h
    refine ⟨hs.symm, ?_⟩
    rw [← hp]
    simp
  · simp only [Except.ok.injEq, Prod.mk.injEq] at h
    obtain ⟨hp, hs⟩ := h
    constructor
    · rw [← hs, openai_generate_frame]
    · intro _
      simp_all

/-- A successful dispatch leaves the system unchanged, and its invoked
flag implies the named provider was available. -/
theorem UltimaSystem.dispatch_inv (s : UltimaSystem) (b : Backends)
    (name prompt : String) (opts : GenOptions) (p : Option String × Bool) (s' : UltimaSystem)
    (h : s.dispatch b name prompt opts = .ok (p, s')) :
    s' = s ∧ (p.2 = true → s.providerAvailable name = true) := by
  unfold UltimaSystem.dispatch at h
  unfold UltimaSystem.providerAvailable
  split at h
  · rename_i hn
    simp only [hn, if_true]
    exact s.genOllama_inv b prompt opts p s' h
  · split at h
    · rename_i hn hn2
      simp only [hn, hn2, if_false, if_true]
      exact s.genGemini_inv b prompt opts p s' h
    · split at h
      · rename_i hn hn2 hn3
        simp only [hn, hn2, hn3, if_false, if_true]
        exact s.genClaude_inv b prompt opts p s' h
      · split at h
        · rename_i hn hn2 hn3 hn4
          simp only [hn, hn2, hn3, hn4, if_false, if_true]
          exact s.genOpenai_inv b prompt opts p s' h
        · rename_i hn hn2 hn3 hn4
          simp only [Except.ok.injEq, Prod.mk.injEq] at h
          obtain ⟨hp, hs⟩ := h
          simp only [hn, hn2, hn3, hn4, if_false]
          refine ⟨hs.symm, ?_⟩
          rw [← hp]
          simp

/-- A _gen_ollama call raises nothing and leaves the system unchanged,
provided the options carry no model key when ollama is available. -/
theorem UltimaSystem.genOllama_ok (s : UltimaSystem) (b : Backends)
    (prompt : String) (opts : GenOptions)
    (h : s.ollama.available = true → opts.model = none) :
    ∃ p, s.genOllama b prompt opts = .ok (p, s) := by
  unfold UltimaSystem.genOllama
  by_cases hav : s.ollama.available = false
  · exact ⟨(none, false), by simp [hav]⟩
  · have hav' : s.ollama.available = true := by simpa using hav
    have hm : opts.model = none := h hav'
    exact ⟨(s.ollama.generate b.ollama (opts.model.getD "llama2") prompt).1,
      by simp [hav', hm, ollama_generate_frame]⟩

/-- A _gen_gemini call raises nothing and leaves the system unchanged. -/
theorem UltimaSystem.genGemini_ok (s : UltimaSystem) (b : Backends)
    (prompt : String) (opts : GenOptions) :
    ∃ p, s.genGemini b prompt opts = .ok (p, s) := by
  unfold UltimaSystem.genGemini
  by_cases hav : s.gemini.available = false
  · exact ⟨(none, false), by simp [hav]⟩
  · have hav' : s.gemini.available = true := by simpa using hav
    exact ⟨(s.gemini.generate b.gemini prompt opts.model).1,
      by simp [hav', gemini_generate_frame]⟩

/-- A _gen_claude call raises nothing and leaves the system unchanged. -/
theorem UltimaSystem.genClaude_ok (s : UltimaSystem) (b : Backends)
    (prompt : String) (opts : GenOptions) :
    ∃ p, s.genClaude b prompt opts = .ok (p, s) := by
  unfold UltimaSystem.genClaude
  by_cases hav : s.claude.available = false
  · exact ⟨(none, false), by simp [hav]⟩
  · have hav' : s.claude.available = true := by simpa using hav
    exact ⟨(s.claude.generate b.claude prompt opts.model).1,
      by simp [hav', claude_generate_frame]⟩

/-- A _gen_openai call raises nothing and leaves the system unchanged. -/
theorem UltimaSystem.genOpenai_ok (s : UltimaSystem) (b : Backends)
    (prompt : String) (opts : GenOptions) :
    ∃ p, s.genOpenai b prompt opts = .ok (p, s) := by
  unfold UltimaSystem.genOpenai
  by_cases hav : s.openai.available = false
  · exact ⟨(none, false), by simp [hav]⟩
  · have hav' : s.openai.available = true := by simpa using hav
    exact ⟨(s.openai.generate b.openai prompt opts.model).1,
      by simp [hav', openai_generate_frame]⟩

/-- Dispatch raises nothing and leaves the system unchanged, provided
the options carry no model key when the name is ollama and the ollama
adapter is available. -/
theorem UltimaSystem.dispatch_ok (s : UltimaSystem) (b : Backends)
    (name prompt : String) (opts : GenOptions)
    (hsafe : name = "ollama" → s.ollama.available = true → opts.model = none) :
    ∃ p, s.dispatch b name prompt opts = .ok (p, s) := by
  unfold UltimaSystem.dispatch
  split
  · rename_i hn
    exact s.genOllama_ok b prompt opts (hsafe hn)
  · split
    · exact s.genGemini_ok b prompt opts
    · split
      · exact s.genClaude_ok b prompt opts
      · split
        · exact s.genOpenai_ok b prompt opts
        · exact ⟨(none, false), rfl⟩

/-- The first component of a successful dispatch is dispatchR. -/
theorem UltimaSystem.dispatch_fst (s : UltimaSystem) (b : Backends)
    (name prompt : String) (opts : GenOptions)
    (p : Option String × Bool) (s' : UltimaSystem)
    (h : s.dispatch b name prompt opts = .ok (p, s')) :
    p.1 = s.dispatchR b name prompt opts := by
  unfold UltimaSystem.dispatchR
  rw [h]

/-- Whatever the backends do, a returning auto loop leaves the system
unchanged, yields either no result or a truthy one, and consults only
providers that are in the walked list and available. -/
theorem UltimaSystem.autoTry_inv (s : UltimaSystem) (b : Backends)
    (prompt : String) (opts : GenOptions) :
    ∀ (l : List String) (out : GenOutcome) (s2 : UltimaSystem),
      s.autoTry b prompt opts l = .ok (out, s2) →
      s2 = s ∧ (out.result = none ∨ pyTruthy out.result = true) ∧
      (∀ m ∈ out.calls, m ∈ l ∧ s.providerAvailable m = true) := by
  intro l
  induction l with
  | nil =>
    intro out s2 h
    simp only [UltimaSystem.autoTry, Except.ok.injEq, Prod.mk.injEq] at h
    obtain ⟨hout, hs⟩ := h
    subst hout
    exact ⟨hs.symm, Or.inl rfl, by simp⟩
  | cons n rest ih =>
    intro out s2 h
    simp only [UltimaSystem.autoTry] at h
    split at h
    · exact absurd h (by simp)
    · rename_i step hd
      obtain ⟨hstate, hinv⟩ :=
        s.dispatch_inv b n prompt opts step.1 step.2 (by rw [hd])
      split at h
      · rename_i ht
        simp only [Except.ok.injEq, Prod.mk.injEq] at h
        obtain ⟨hout, hs2⟩ := h
        subst hout
        refine ⟨by rw [← hs2, hstate], Or.inr ht, ?_⟩
        intro m hm
        by_cases hc : step.1.2 = true
        · rw [if_pos hc] at hm
          simp only [List.mem_singleton] at hm
          rw [hm]
          exact ⟨List.mem_cons_self n rest, hinv hc⟩
        · rw [if_neg hc] at hm
          simp at hm
      · split at h
        · exact absurd h (by simp)
        · rename_i nx ha
          simp only [Except.ok.injEq, Prod.mk.injEq] at h
          obtain ⟨hout, hs2⟩ := h
          subst hout
          rw [hstate] at ha
          obtain ⟨hrec, hres, hcalls⟩ := ih nx.1 nx.2 (by rw [ha])
          refine ⟨by rw [← hs2, hrec], hres, ?_⟩
          intro m hm
          simp only [List.mem_append] at hm
          cases hm with
          | inl hm =>
            by_cases hc : step.1.2 = true
            · rw [if_pos hc] at hm
              simp only [List.mem_singleton] at hm
              rw [hm]
              exact ⟨List.mem_cons_self n rest, hinv hc⟩
            · rw [if_neg hc] at hm
              simp at hm
          | inr hm =>
            obtain ⟨h1, h2⟩ := hcalls m hm
            exact ⟨List.mem_cons_of_mem n h1, h2⟩

/-- First success wins: when every provider before n in the walked
list yields a falsy result and n yields a truthy one, the auto loop
stops at n, returns exactly its text, leaves the system unchanged, and
consults no backend beyond the prefix and n. -/
theorem UltimaSystem.autoTry_first (s : UltimaSystem) (b : Backends)
    (prompt : String) (opts : GenOptions)
    (hsafe : s.ollama.available = true → opts.model = none) :
    ∀ (l1 : List String) (n : String) (l2 : List String),
      (∀ m ∈ l1, pyTruthy (s.dispatchR b m prompt opts) = false) →
      pyTruthy (s.dispatchR b n prompt opts) = true →
      ∃ out, s.autoTry b prompt opts (l1 ++ n :: l2) = .ok (out, s) ∧
        out.result = s.dispatchR b n prompt opts ∧
        ∀ m ∈ out.calls, m ∈ l1 ∨ m = n := by
  intro l1
  induction l1 with
  | nil =>
    intro n l2 _ ht
    obtain ⟨p, hp⟩ := s.dispatch_ok b n prompt opts (fun _ => hsafe)
    have hfst := s.dispatch_fst b n prompt opts p s hp
    refine ⟨⟨p.1, if p.2 = true then [n] else [], []⟩, ?_, hfst, ?_⟩
    · simp only [List.nil_append, UltimaSystem.autoTry, hp]
      rw [if_pos (by rw [hfst]; exact ht)]
    · intro m hm
      by_cases hc : p.2 = true
      · rw [if_pos hc] at hm
        simp only [List.mem_singleton] at hm
        exact Or.inr hm
      · rw [if_neg hc] at hm
        simp at hm
  | cons a l1 ih =>
    intro n l2 h1 ht
    obtain ⟨p, hp⟩ := s.dispatch_ok b a prompt opts (fun _ => hsafe)
    have hfa := s.dispatch_fst b a prompt opts p s hp
    have hfalse : pyTruthy p.1 = false := by
      rw [hfa]
      exact h1 a (List.mem_cons_self a l1)
    obtain ⟨out, hrec, hres, hcalls⟩ :=
      ih n l2 (fun m hm => h1 m (List.mem_cons_of_mem a hm)) ht
    refine ⟨⟨out.result, (if p.2 = true then [a] else []) ++ out.calls, out.log⟩,
      ?_, hres, ?_⟩
    · simp only [List.cons_append, UltimaSystem.autoTry, hp]
      rw [if_neg (by simp [hfalse])]
      simp only [List.append_eq]
      rw [hrec]
    · intro m hm
      simp only [List.mem_append] at hm
      cases hm with
      | inl hm =>
        by_cases hc : p.2 = true
        · rw [if_pos hc] at hm
          simp only [List.mem_singleton] at hm
          rw [hm]
          exact Or.inl (List.mem_cons_self a l1)
        · rw [if_neg hc] at hm
          simp at hm
      | inr hm =>
        cases hcalls m hm with
        | inl h => exact Or.inl (List.mem_cons_of_mem a h)
        | inr h => exact Or.inr h

/-- Exhausted fallback: when every provider in the walked list yields a
falsy result, the auto loop reports no provider available and returns
no result. -/
theorem UltimaSystem.autoTry_allFalsy (s : UltimaSystem) (b : Backends)
    (prompt : String) (opts : GenOptions)
    (hsafe : s.ollama.available = true → opts.model = none) :
    ∀ (l : List String),
      (∀ m ∈ l, pyTruthy (s.dispatchR b m prompt opts) = false) →
      ∃ out, s.autoTry b prompt opts l = .ok (out, s) ∧ out.result = none ∧
        out.log = ["[ERROR] No provider available for generation"] := by
  intro l
  induction l with
  | nil =>
    intro _
    exact ⟨⟨none, [], ["[ERROR] No provider available for generation"]⟩, rfl, rfl, rfl⟩
  | cons a l ih =>
    intro h1
    obtain ⟨p, hp⟩ := s.dispatch_ok b a prompt opts (fun _ => hsafe)
    have hfa := s.dispatch_fst b a prompt opts p s hp
    have hfalse : pyTruthy p.1 = false := by
      rw [hfa]
      exact h1 a (List.mem_cons_self a l)
    obtain ⟨out, hrec, hres, hlog⟩ := ih (fun m hm => h1 m (List.mem_cons_of_mem a hm))
    refine ⟨⟨out.result, (if p.2 = true then [a] else []) ++ out.calls, out.log⟩,
      ?_, hres, hlog⟩
    simp only [UltimaSystem.autoTry, hp]
    rw [if_neg (by simp [hfalse]), hrec]

/-! ### Claim theorems -/

/-- C6: for every provider name outside the known set, the façade
generate returns absent, logs an unknown-provider line, consults no
backend, and does not raise. -/
theorem facade_unknown_provider_absent (s : UltimaSystem) (b : Backends)
    (prompt provider : String) (opts : GenOptions)
    (h1 : provider ∉ knownProviders) (h2 : provider ≠ "auto") :
    s.generate b prompt provider opts =
      .ok (⟨none, [], ["[ERROR] Unknown provider: " ++ provider]⟩, s) := by
  unfold UltimaSystem.generate
  rw [if_pos h2, if_neg h1]

/-- Witness for C6 at the provider name of the spec example. -/
theorem facade_unknown_provider_absent_witness :
    ("nonexistent-provider" ∉ knownProviders ∧ "nonexistent-provider" ≠ "auto") ∧
    sysAllDown.generate bAllRaise "hi" "nonexistent-provider" optsPlain =
      .ok (⟨none, [], ["[ERROR] Unknown provider: nonexistent-provider"]⟩, sysAllDown) := by
  refine ⟨⟨by decide, by decide⟩, ?_⟩
  rw [facade_unknown_provider_absent sysAllDown bAllRaise "hi" "nonexistent-provider"
    optsPlain (by decide) (by decide)]
  rfl

/-- C4: whenever create_idea returns, the temp_idea.json flag is clear
again, whether the script call succeeded or raised. -/
theorem dolphin_create_idea_releases_temp (d : DolphinIntegration) (fs : DolphinFS)
    (proc : Except Unit String) (r : Option String) (fs2 : DolphinFS)
    (d' : DolphinIntegration)
    (h : d.create_idea fs proc = .ok ((r, fs2), d')) :
    fs2.tempIdea = false := by
  unfold DolphinIntegration.create_idea at h
  split at h
  · exact absurd h (by simp)
  · simp only [Except.ok.injEq, Prod.mk.injEq] at h
    obtain ⟨⟨_, hfs⟩, _⟩ := h
    rw [← hfs]
    simp

/-- Witness for C4, with the script run raising. -/
theorem dolphin_create_idea_releases_temp_witness :
    ∃ r fs2, dolphinLive.create_idea fsLive (Except.error ()) =
      .ok ((r, fs2), dolphinLive) ∧ fs2.tempIdea = false := by
  refine ⟨none, ⟨true, false, fun _ => true⟩, rfl, ?_⟩
  exact dolphin_create_idea_releases_temp dolphinLive fsLive (Except.error ())
    none ⟨true, false, fun _ => true⟩ dolphinLive rfl

/-- C8: token validity holds exactly when a credential snapshot was
loaded and the current epoch-millisecond time is strictly below its
expiresAt; in particular an expiresAt 1000 ms in the past reports
invalid and one 1000000 ms in the future reports valid. -/
theorem claude_token_validity_iff :
    (∀ (c : ClaudeIntegration) (now : Nat),
      c.credentials = none → (c.is_token_valid now).1 = false)
    ∧ (∀ (c : ClaudeIntegration) (creds : ClaudeCredentials) (e : Int) (now : Nat),
        c.credentials = some creds → creds.expiresAt = some e →
        ((c.is_token_valid now).1 = true ↔ (now : Int) < e))
    ∧ (∀ (c : ClaudeIntegration) (creds : ClaudeCredentials) (now : Nat),
        c.credentials = some creds → creds.expiresAt = some ((now : Int) - 1000) →
        (c.is_token_valid now).1 = false)
    ∧ (∀ (c : ClaudeIntegration) (creds : ClaudeCredentials) (now : Nat),
        c.credentials = some creds → creds.expiresAt = some ((now : Int) + 1000000) →
        (c.is_token_valid now).1 = true) := by
  refine ⟨?_, ?_, ?_, ?_⟩
  · intro c now h
    simp [ClaudeIntegration.is_token_valid, h]
  · intro c creds e now hc he
    simp [ClaudeIntegration.is_token_valid, hc, he]
  · intro c creds now hc he
    simp only [ClaudeIntegration.is_token_valid, hc, he, Option.getD_some,
      decide_eq_false_iff_not, not_lt]
    omega
  · intro c creds now hc he
    simp only [ClaudeIntegration.is_token_valid, hc, he, Option.getD_some,
      decide_eq_true_eq]
    omega

/-- Witness for C8 on the concrete credential fixtures. -/
theorem claude_token_validity_iff_witness :
    (claudeDown.credentials = none ∧ (claudeDown.is_token_valid 0).1 = false)
    ∧ (claudeWithA.credentials = some credsA ∧ credsA.expiresAt = some 5000 ∧
        ((claudeWithA.is_token_valid 4000).1 = true ↔ (4000 : Int) < 5000))
    ∧ (credsA.expiresAt = some ((6000 : Int) - 1000) ∧
        (claudeWithA.is_token_valid 6000).1 = false)
    ∧ (credsB.expiresAt = some ((0 : Int) + 1000000) ∧
        (claudeWithB.is_token_valid 0).1 = true) := by
  refine ⟨⟨rfl, ?_⟩, ⟨rfl, rfl, ?_⟩, ⟨by decide, ?_⟩, ⟨by decide, ?_⟩⟩
  · exact claude_token_validity_iff.1 claudeDown 0 rfl
  · exact claude_token_validity_iff.2.1 claudeWithA credsA 5000 4000 rfl rfl
  · exact claude_token_validity_iff.2.2.1 claudeWithA credsA 6000 rfl (by decide)
  · exact claude_token_validity_iff.2.2.2 claudeWithB credsB 0 rfl (by decide)

/-- C7: every adapter whose available flag is false answers generate
and chat with an absent result without consulting its backend oracle,
and the façade per-provider helpers likewise short-circuit. -/
theorem adapters_unavailable_short_circuit :
    (∀ (o : OllamaIntegration)
        (gb : String → String → Except Unit (Option String))
        (cb : String → List ChatMessage → Except Unit String)
        (model prompt : String) (messages : List ChatMessage),
      o.available = false →
        o.generate gb model prompt = ((none, false), o) ∧
        o.chat cb model messages = ((none, false), o))
    ∧ (∀ (g : GeminiIntegration)
        (gb : String → String → Except Unit (Option String))
        (cb : String → List ChatMessage → Except Unit (Option String))
        (prompt : String) (messages : List ChatMessage) (m : Option String),
      g.available = false →
        g.generate gb prompt m = ((none, false), g) ∧
        g.chat cb messages m = ((none, false), g))
    ∧ (∀ (c : ClaudeIntegration)
        (gb : String → String → Except Unit String)
        (cb : String → List ChatMessage → Except Unit String)
        (prompt : String) (messages : List ChatMessage) (m : Option String),
      c.available = false →
        c.generate gb prompt m = ((none, false), c) ∧
        c.chat cb messages m = ((none, false), c))
    ∧ (∀ (o : OpenAIIntegration)
        (gb : String → String → Except Unit (Option String))
        (cb : String → List ChatMessage → Except Unit (Option String))
        (prompt : String) (messages : List ChatMessage) (m : Option String),
      o.available = false →
        o.generate gb prompt m = ((none, false), o) ∧
        o.chat cb messages m = ((none, false), o))
    ∧ (∀ (s : UltimaSystem) (b : Backends) (prompt : String) (opts : GenOptions),
        (s.ollama.available = false → s.genOllama b prompt opts = .ok ((none, false), s)) ∧
        (s.gemini.available = false → s.genGemini b prompt opts = .ok ((none, false), s)) ∧
        (s.claude.available = false → s.genClaude b prompt opts = .ok ((none, false), s)) ∧
        (s.openai.available = false → s.genOpenai b prompt opts = .ok ((none, false), s))) := by
  refine ⟨?_, ?_, ?_, ?_, ?_⟩
  · intro o gb cb model prompt messages h
    constructor
    · simp [OllamaIntegration.generate, h]
    · simp [OllamaIntegration.chat, h]
  · intro g gb cb prompt messages m h
    constructor
    · simp [GeminiIntegration.generate, h]
    · simp [GeminiIntegration.chat, h]
  · intro c gb cb prompt messages m h
    constructor
    · simp [ClaudeIntegration.generate, h]
    · simp [ClaudeIntegration.chat, h]
  · intro o gb cb prompt messages m h
    constructor
    · simp [OpenAIIntegration.generate, h]
    · simp [OpenAIIntegration.chat, h]
  · intro s b prompt opts
    refine ⟨?_, ?_, ?_, ?_⟩
    · intro h; simp [UltimaSystem.genOllama, h]
    · intro h; simp [UltimaSystem.genGemini, h]
    · intro h; simp [UltimaSystem.genClaude, h]
    · intro h; simp [UltimaSystem.genOpenai, h]

/-- Witness for C7 on probe-failed adapters with raising backends. -/
theorem adapters_unavailable_short_circuit_witness :
    ((⟨false⟩ : OllamaIntegration).available = false ∧
      OllamaIntegration.generate ⟨false⟩ bAllRaise.ollama "llama2" "hi" =
        ((none, false), ⟨false⟩))
    ∧ (geminiDown.available = false ∧
        geminiDown.generate bAllRaise.gemini "hi" none = ((none, false), geminiDown))
    ∧ (claudeDown.available = false ∧
        claudeDown.generate bAllRaise.claude "hi" none = ((none, false), claudeDown))
    ∧ (openaiDown.available = false ∧
        openaiDown.generate bAllRaise.openai "hi" none = ((none, false), openaiDown))
    ∧ (sysAllDown.ollama.available = false ∧
        sysAllDown.genOllama bAllRaise "hi" optsPlain = .ok ((none, false), sysAllDown)) := by
  refine ⟨⟨rfl, ?_⟩, ⟨rfl, ?_⟩, ⟨rfl, ?_⟩, ⟨rfl, ?_⟩, ⟨rfl, ?_⟩⟩
  · exact (adapters_unavailable_short_circuit.1 ⟨false⟩ bAllRaise.ollama
      (fun _ _ => Except.error ()) "llama2" "hi" [] rfl).1
  · exact (adapters_unavailable_short_circuit.2.1 geminiDown bAllRaise.gemini
      (fun _ _ => Except.error ()) "hi" [] none rfl).1
  · exact (adapters_unavailable_short_circuit.2.2.1 claudeDown bAllRaise.claude
      (fun _ _ => Except.error ()) "hi" [] none rfl).1
  · exact (adapters_unavailable_short_circuit.2.2.2.1 openaiDown bAllRaise.openai
      (fun _ _ => Except.error ()) "hi" [] none rfl).1
  · exact (adapters_unavailable_short_circuit.2.2.2.2 sysAllDown bAllRaise "hi"
      optsPlain).1 rfl

/-- C3 counterexample: with an explicit ollama request and a backend
response dict carrying no response field, the façade hands the caller
the empty string as a success value (the auto-mode truthiness filter
does not run on the explicit path). -/
theorem facade_explicit_returns_empty_string :
    sysOllamaOnly.generate bNoResponseField "hi" "ollama" optsPlain =
      .ok (⟨some "", ["ollama"], []⟩, sysOllamaOnly) := by
  rfl

/-- C3 as amended: every result the façade returns in auto mode is
either absent or a non-empty string. -/
theorem facade_auto_result_nonempty_or_absent (s : UltimaSystem) (b : Backends)
    (prompt : String) (opts : GenOptions) (out : GenOutcome) (s2 : UltimaSystem)
    (h : s.generate b prompt "auto" opts = .ok (out, s2)) :
    out.result = none ∨ ∃ t, out.result = some t ∧ t ≠ "" := by
  have hgen : s.autoTry b prompt opts autoPriority = .ok (out, s2) := by
    simpa [UltimaSystem.generate] using h
  obtain ⟨_, hres, _⟩ := s.autoTry_inv b prompt opts autoPriority out s2 hgen
  cases hres with
  | inl h0 => exact Or.inl h0
  | inr h1 =>
    right
    cases hr : out.result with
    | none =>
      rw [hr] at h1
      simp [pyTruthy] at h1
    | some t =>
      refine ⟨t, rfl, ?_⟩
      rw [hr] at h1
      simpa [pyTruthy] using h1

/-- Witness for the amended C3 with every provider down. -/
theorem facade_auto_result_nonempty_or_absent_witness :
    (sysAllDown.generate bAllRaise "hi" "auto" optsPlain =
      .ok (⟨none, [], ["[ERROR] No provider available for generation"]⟩, sysAllDown)) ∧
    ((⟨none, [], ["[ERROR] No provider available for generation"]⟩ : GenOutcome).result = none ∨
      ∃ t, (⟨none, [], ["[ERROR] No provider available for generation"]⟩ : GenOutcome).result
        = some t ∧ t ≠ "") := by
  refine ⟨rfl, ?_⟩
  exact facade_auto_result_nonempty_or_absent sysAllDown bAllRaise "hi" optsPlain
    ⟨none, [], ["[ERROR] No provider available for generation"]⟩ sysAllDown rfl

/-- C10: a returning auto-mode generate never consults the Dolphin
adapter: its backend trace lists only the four model providers,
dolphin is not among them, and the dolphin adapter value is
untouched. -/
theorem facade_auto_never_touches_dolphin (s : UltimaSystem) (b : Backends)
    (prompt : String) (opts : GenOptions) (out : GenOutcome) (s2 : UltimaSystem)
    (h : s.generate b prompt "auto" opts = .ok (out, s2)) :
    "dolphin" ∉ out.calls ∧ (∀ m ∈ out.calls, m ∈ autoPriority) ∧
    s2.dolphin = s.dolphin := by
  have hgen : s.autoTry b prompt opts autoPriority = .ok (out, s2) := by
    simpa [UltimaSystem.generate] using h
  obtain ⟨hs, _, hcalls⟩ := s.autoTry_inv b prompt opts autoPriority out s2 hgen
  refine ⟨?_, fun m hm => (hcalls m hm).1, by rw [hs]⟩
  intro hd
  exact absurd (hcalls "dolphin" hd).1 (by decide)

/-- Witness for C10 on the spec scenario. -/
theorem facade_auto_never_touches_dolphin_witness :
    (sysScenario.generate bScenario "hi" "auto" optsPlain =
      .ok (⟨some "hello", ["gemini", "ollama"], []⟩, sysScenario)) ∧
    "dolphin" ∉ (⟨some "hello", ["gemini", "ollama"], []⟩ : GenOutcome).calls ∧
    sysScenario.dolphin = sysScenario.dolphin := by
  refine ⟨rfl, ?_, rfl⟩
  exact (facade_auto_never_touches_dolphin sysScenario bScenario "hi" optsPlain
    ⟨some "hello", ["gemini", "ollama"], []⟩ sysScenario rfl).1

/-- C9: after construction, no façade or adapter operation changes an
adapter: generate, status_report, the adapter generate and chat calls,
list_models, is_token_valid, run_script and create_idea all hand back
the adapter values (and so the available flags and the credential
snapshot) they started from. -/
theorem operations_preserve_adapter_state :
    (∀ (s : UltimaSystem) (b : Backends) (prompt provider : String)
        (opts : GenOptions) (out : GenOutcome) (s2 : UltimaSystem),
      s.generate b prompt provider opts = .ok (out, s2) → s2 = s)
    ∧ (∀ (s : UltimaSystem) (l : Except Unit (List String)),
        (s.status_report l).2 = s)
    ∧ (∀ (o : OllamaIntegration) (gb : String → String → Except Unit (Option String))
        (model prompt : String), (o.generate gb model prompt).2 = o)
    ∧ (∀ (o : OllamaIntegration) (cb : String → List ChatMessage → Except Unit String)
        (model : String) (messages : List ChatMessage), (o.chat cb model messages).2 = o)
    ∧ (∀ (o : OllamaIntegration) (lb : Except Unit (List String)),
        (o.list_models lb).2 = o)
    ∧ (∀ (g : GeminiIntegration) (gb : String → String → Except Unit (Option String))
        (prompt : String) (m : Option String), (g.generate gb prompt m).2 = g)
    ∧ (∀ (g : GeminiIntegration)
        (cb : String → List ChatMessage → Except Unit (Option String))
        (messages : List ChatMessage) (m : Option String), (g.chat cb messages m).2 = g)
    ∧ (∀ (c : ClaudeIntegration) (gb : String → String → Except Unit String)
        (prompt : String) (m : Option String), (c.generate gb prompt m).2 = c)
    ∧ (∀ (c : ClaudeIntegration) (cb : String → List ChatMessage → Except Unit String)
        (messages : List ChatMessage) (m : Option String), (c.chat cb messages m).2 = c)
    ∧ (∀ (c : ClaudeIntegration) (now : Nat), (c.is_token_valid now).2 = c)
    ∧ (∀ (o : OpenAIIntegration) (gb : String → String → Except Unit (Option String))
        (prompt : String) (m : Option String), (o.generate gb prompt m).2 = o)
    ∧ (∀ (o : OpenAIIntegration)
        (cb : String → List ChatMessage → Except Unit (Option String))
        (messages : List ChatMessage) (m : Option String), (o.chat cb messages m).2 = o)
    ∧ (∀ (d : DolphinIntegration) (fs : DolphinFS) (name : String)
        (proc : Except Unit String), (d.run_script fs name proc).2 = d)
    ∧ (∀ (d : DolphinIntegration) (fs : DolphinFS) (proc : Except Unit String)
        (r : Option String) (fs2 : DolphinFS) (d' : DolphinIntegration),
        d.create_idea fs proc = .ok ((r, fs2), d') → d' = d) := by
  refine ⟨?_, ?_, ollama_generate_frame, ollama_chat_frame,
    ollama_list_models_frame, gemini_generate_frame,
    gemini_chat_frame, claude_generate_frame,
    claude_chat_frame, claude_is_token_valid_frame,
    openai_generate_frame, openai_chat_frame,
    dolphin_run_script_frame, ?_⟩
  · intro s b prompt provider opts out s2 h
    unfold UltimaSystem.generate at h
    split at h
    · split at h
      · split at h
        · exact absurd h (by simp)
        · rename_i step hd
          simp only [Except.ok.injEq, Prod.mk.injEq] at h
          obtain ⟨_, hs2⟩ := h
          rw [← hs2]
          exact (UltimaSystem.dispatch_inv s b provider prompt opts step.1 step.2
            (by rw [hd])).1
      · simp only [Except.ok.injEq, Prod.mk.injEq] at h
        exact h.2.symm
    · exact (s.autoTry_inv b prompt opts autoPriority out s2 h).1
  · intro s l
    unfold UltimaSystem.status_report
    by_cases hav : s.ollama.available = true
    · simp [hav, ollama_list_models_frame]
    · simp [hav]
  · intro d fs proc r fs2 d' h
    unfold DolphinIntegration.create_idea at h
    split at h
    · exact absurd h (by simp)
    · simp only [Except.ok.injEq, Prod.mk.injEq] at h
      obtain ⟨_, hd⟩ := h
      rw [← hd, dolphin_run_script_frame]

/-- Witness for C9 at the hypothesis-bearing conjuncts. -/
theorem operations_preserve_adapter_state_witness :
    (sysAllDown.generate bAllRaise "hi" "auto" optsPlain =
        .ok (⟨none, [], ["[ERROR] No provider available for generation"]⟩, sysAllDown) ∧
      sysAllDown = sysAllDown)
    ∧ (dolphinLive.create_idea fsLive (Except.error ()) =
        .ok ((none, ⟨true, false, fun _ => true⟩), dolphinLive) ∧
      dolphinLive = dolphinLive) := by
  refine ⟨⟨rfl, ?_⟩, ⟨rfl, ?_⟩⟩
  · exact operations_preserve_adapter_state.1 sysAllDown bAllRaise "hi" "auto" optsPlain
      ⟨none, [], ["[ERROR] No provider available for generation"]⟩ sysAllDown rfl
  · exact operations_preserve_adapter_state.2.2.2.2.2.2.2.2.2.2.2.2.2
      dolphinLive fsLive (Except.error ()) none ⟨true, false, fun _ => true⟩
      dolphinLive rfl

/-- C5 counterexample: an explicit ollama request whose options carry a
model key raises instead of returning the adapter result, even though
the ollama backend would have answered (the duplicate-argument defect
also recorded under C2). -/
theorem facade_explicit_ollama_model_crash :
    sysOllamaOnly.generate bScenario "hi" "ollama" optsWithModel = .error () := by
  rfl

/-- C5 as amended: an explicit known provider name delegates to that
single adapter and hands back its result with no further fallback,
provided the options carry no model key when the name is ollama and
the ollama adapter is available. -/
theorem facade_explicit_delegates_no_fallback (s : UltimaSystem) (b : Backends)
    (prompt : String) (opts : GenOptions) (p : String)
    (hp : p ∈ knownProviders)
    (hsafe : p = "ollama" → s.ollama.available = true → opts.model = none) :
    ∃ out, s.generate b prompt p opts = .ok (out, s) ∧
      out.result = s.dispatchR b p prompt opts ∧
      out.log = [] ∧
      ∀ m ∈ out.calls, m = p := by
  have hne : p ≠ "auto" := by
    intro hcontra
    rw [hcontra] at hp
    exact absurd hp (by decide)
  obtain ⟨q, hq⟩ := s.dispatch_ok b p prompt opts hsafe
  have hfst := s.dispatch_fst b p prompt opts q s hq
  refine ⟨⟨q.1, if q.2 = true then [p] else [], []⟩, ?_, hfst, rfl, ?_⟩
  · unfold UltimaSystem.generate
    rw [if_pos hne, if_pos hp, hq]
  · intro m hm
    by_cases hc : q.2 = true
    · rw [if_pos hc] at hm
      simpa using hm
    · rw [if_neg hc] at hm
      simp at hm

/-- Witness for the amended C5 on an explicit gemini request. -/
theorem facade_explicit_delegates_no_fallback_witness :
    "gemini" ∈ knownProviders ∧
    ∃ out, sysGeminiOnly.generate bGemini "q" "gemini" optsPlain =
        .ok (out, sysGeminiOnly) ∧
      out.result = some "gm" ∧ ∀ m ∈ out.calls, m = "gemini" := by
  refine ⟨by decide, ?_⟩
  obtain ⟨out, hg, hres, _, hcalls⟩ :=
    facade_explicit_delegates_no_fallback sysGeminiOnly bGemini "q" optsPlain "gemini"
      (by decide) (fun h => absurd h (by decide))
  refine ⟨out, hg, ?_, hcalls⟩
  rw [hres]
  rfl

/-- C1 counterexample: in auto mode with a model key in the options and
only ollama available, the loop reaches the ollama leg and raises a
TypeError instead of returning the non-empty text the backend would
produce, so the auto policy as stated fails for such options. -/
theorem facade_auto_model_override_crash :
    sysOllamaOnly.generate bScenario "hi" "auto" optsWithModel = .error () := by
  rfl

/-- C1 as amended: in auto mode, provided the options carry no model
key, generate walks claude, openai, gemini, ollama in order; the first
provider with a truthy result decides the returned text and no
provider after it is consulted; when all of them come back falsy, the
result is absent and the façade reports no provider available; and no
unavailable provider is ever consulted. -/
theorem facade_auto_priority_first_success (s : UltimaSystem) (b : Backends)
    (prompt : String) (opts : GenOptions) (hm : opts.model = none) :
    (∀ (pre : List String) (n : String) (post : List String),
       pre ++ n :: post = autoPriority →
       (∀ m ∈ pre, pyTruthy (s.dispatchR b m prompt opts) = false) →
       pyTruthy (s.dispatchR b n prompt opts) = true →
       ∃ out, s.generate b prompt "auto" opts = .ok (out, s) ∧
         out.result = s.dispatchR b n prompt opts ∧
         ∀ m ∈ post, m ∉ out.calls)
    ∧ ((∀ m ∈ autoPriority, pyTruthy (s.dispatchR b m prompt opts) = false) →
       ∃ out, s.generate b prompt "auto" opts = .ok (out, s) ∧ out.result = none ∧
         out.log = ["[ERROR] No provider available for generation"])
    ∧ (∀ (out : GenOutcome) (s2 : UltimaSystem),
       s.generate b prompt "auto" opts = .ok (out, s2) →
       ∀ m, s.providerAvailable m = false → m ∉ out.calls) := by
  have hauto : s.generate b prompt "auto" opts = s.autoTry b prompt opts autoPriority := by
    simp [UltimaSystem.generate]
  have hsafe : s.ollama.available = true → opts.model = none := fun _ => hm
  refine ⟨?_, ?_, ?_⟩
  · intro pre n post hdec h1 ht
    obtain ⟨out, hrun, hres, hcalls⟩ := s.autoTry_first b prompt opts hsafe pre n post h1 ht
    rw [hdec] at hrun
    refine ⟨out, by rw [hauto, hrun], hres, ?_⟩
    have hnodup : (pre ++ n :: post).Nodup := by
      rw [hdec]
      decide
    intro m hmp hmc
    rw [List.nodup_append] at hnodup
    cases hcalls m hmc with
    | inl hin =>
      exact hnodup.2.2 hin (List.mem_cons_of_mem n hmp)
    | inr heq =>
      rw [heq] at hmp
      exact (List.nodup_cons.mp hnodup.2.1).1 hmp
  · intro hfal
    obtain ⟨out, hrun, hres, hlog⟩ :=
      s.autoTry_allFalsy b prompt opts hsafe autoPriority hfal
    exact ⟨out, by rw [hauto, hrun], hres, hlog⟩
  · intro out s2 hgen m hunav hmem
    have hgen2 : s.autoTry b prompt opts autoPriority = .ok (out, s2) := by
      rw [← hauto]
      exact hgen
    obtain ⟨_, _, hcalls⟩ := s.autoTry_inv b prompt opts autoPriority out s2 hgen2
    rw [(hcalls m hmem).2] at hunav
    exact absurd hunav (by simp)

/-- Witness for the amended C1 at the spec scenario: claude and openai
unavailable, gemini answering the empty string, ollama answering
hello. -/
theorem facade_auto_priority_first_success_witness :
    optsPlain.model = none ∧
    ["claude", "openai", "gemini"] ++ "ollama" :: [] = autoPriority ∧
    (∀ m ∈ ["claude", "openai", "gemini"],
      pyTruthy (sysScenario.dispatchR bScenario m "hi" optsPlain) = false) ∧
    pyTruthy (sysScenario.dispatchR bScenario "ollama" "hi" optsPlain) = true ∧
    ∃ out, sysScenario.generate bScenario "hi" "auto" optsPlain =
        .ok (out, sysScenario) ∧ out.result = some "hello" := by
  refine ⟨rfl, rfl, by decide, by decide, ?_⟩
  obtain ⟨out, hg, hres, _⟩ :=
    (facade_auto_priority_first_success sysScenario bScenario "hi" optsPlain rfl).1
      ["claude", "openai", "gemini"] "ollama" [] rfl (by decide) (by decide)
  refine ⟨out, hg, ?_⟩
  rw [hres]
  rfl

/-- C2: evaluation at the failing input.  With the ollama package
importable and the documented model kwarg supplied, the façade
generate call raises (a TypeError from the duplicated model argument
in _gen_ollama) instead of reducing the failure to an absent result. -/
theorem facade_generate_model_kwarg_raises :
    sysOllamaOnly.generate bAllRaise "hi" "ollama" optsWithModel = .error () := by
  rfl
